import Mathlib

/-! Verification development for `backend_go` (cinema CRUD service).

The two Go programs `main.go` (create only) and `main14.go` (full CRUD) are
embedded as pure functions.  A handler receives

* the database handle `db : DB σ`, a record of the six SQL statements the
  handlers issue, each a function from the database state to a result and a
  successor state,
* the request inputs (the path parameter as a string, the outcome of
  `ShouldBindJSON` as `Except String Bioskop`),
* the database state,

and returns the HTTP response, the successor database state and the list of
statements it issued, in order.

`log.Println` only writes to the process log and never reaches the response;
it is left out of the embedding.
-/

namespace BackendGo

/-! ## Data model -/

/-- A value of the Go type `float32` as obtained from a JSON number: it is
finite, and it is represented by its exact rational value.  Comparisons with
the constants `0` and `5` are exact on these. -/
abbrev GoFloat32 := ℚ

/-- The Go struct `Bioskop` (identical in `main.go` and `main14.go`). -/
structure Bioskop where
  ID : Int
  Nama : String
  Lokasi : String
  Rating : GoFloat32
  deriving DecidableEq

/-- A Go slice of `Bioskop`: `none` is the nil slice (encoded as JSON `null`),
`some l` a non-nil slice (encoded as a JSON array). -/
abbrev BioskopSlice := Option (List Bioskop)

/-- Go `len` on a slice: the nil slice has length zero. -/
def BioskopSlice.len : BioskopSlice → Nat
  | none => 0
  | some l => l.length

/-- The values stored in a `gin.H` response map by the handlers. -/
inductive Val where
  | str (s : String)
  | int (n : Int)
  | bioskop (b : Bioskop)
  | slice (l : BioskopSlice)
  deriving DecidableEq

/-- An HTTP response written with `c.JSON(status, gin.H ...)`: the status code
and the key/value pairs of the map, in the order the source writes them. -/
structure Response where
  status : Nat
  body : List (String × Val)
  deriving DecidableEq

/-- Look a key up in a response body. -/
def Response.field (r : Response) (key : String) : Option Val :=
  (r.body.find? (fun kv => kv.1 == key)).map Prod.snd

/-! ## The database interface -/

/-- An error value returned by `database/sql`: the sentinel `sql.ErrNoRows`, or
any other error, carrying its text. -/
inductive DbErr where
  | ErrNoRows
  | other (text : String)
  deriving DecidableEq

/-- The `sql.Result` of `db.Exec`: what `RowsAffected()` returns, a count
together with an optional error. -/
structure ExecResult where
  rowsAffected : Int
  rowsErr : Option DbErr
  deriving DecidableEq

/-- The SQL statements issued by the handlers, with their bound parameters. -/
inductive Call where
  | insert (nama lokasi : String) (rating : GoFloat32)
  | selectAll
  | getById (id : Int)
  | existsById (id : Int)
  | update (nama lokasi : String) (rating : GoFloat32) (id : Int)
  | delete (id : Int)
  deriving DecidableEq

/-- The database handle: one field per SQL statement of the source.  Each takes
the bound parameters and the database state and returns the Go result (value or
error) with the successor state. -/
structure DB (σ : Type) where
  /-- `INSERT INTO bioskop (nama, lokasi, rating) VALUES ($1, $2, $3) RETURNING id` -/
  insert : String → String → GoFloat32 → σ → Except DbErr Int × σ
  /-- `SELECT id, nama, lokasi, rating FROM bioskop ORDER BY id` -/
  selectAll : σ → Except DbErr BioskopSlice × σ
  /-- `SELECT id, nama, lokasi, rating FROM bioskop WHERE id = $1` -/
  getById : Int → σ → Except DbErr Bioskop × σ
  /-- `SELECT EXISTS(SELECT 1 FROM bioskop WHERE id = $1)` -/
  existsById : Int → σ → Except DbErr Bool × σ
  /-- `UPDATE bioskop SET nama = $1, lokasi = $2, rating = $3 WHERE id = $4` -/
  update : String → String → GoFloat32 → Int → σ → Except DbErr ExecResult × σ
  /-- `DELETE FROM bioskop WHERE id = $1` -/
  delete : Int → σ → Except DbErr ExecResult × σ

/-- What a handler run produces: the response, the database state afterwards and
the statements issued, in order. -/
structure Outcome (σ : Type) where
  resp : Response
  st : σ
  calls : List Call

/-! ## `strconv.Atoi` -/

/-- Split an optional leading sign off: the flag tells whether it was `-`. -/
def stripSign : List Char → Bool × List Char
  | '-' :: rest => (true, rest)
  | '+' :: rest => (false, rest)
  | cs => (false, cs)

/-- Value of a string of decimal digits. -/
def digitsValue (cs : List Char) : Nat :=
  cs.foldl (fun n c => n * 10 + (c.toNat - '0'.toNat)) 0

/-- Go standard library `strconv.Atoi` with `int` of 64 bits: an optional sign
followed by one or more decimal digits, whose value fits `int`; `none` stands
for a returned error (syntax or range). -/
def Atoi (s : String) : Option Int :=
  let p := stripSign s.toList
  if p.2.isEmpty then none
  else if !p.2.all Char.isDigit then none
  else
    let un := digitsValue p.2
    if !p.1 && decide (2 ^ 63 ≤ un) then none
    else if p.1 && decide (2 ^ 63 < un) then none
    else some (if p.1 then -(un : Int) else (un : Int))

/-! ## `main14.go` -/

namespace Main14

/-- Handler `createBioskop` of `main14.go` (POST /bioskop). -/
def createBioskop {σ : Type} (db : DB σ) (body : Except String Bioskop) (s : σ) : Outcome σ :=
  match body with
  | .error detail =>
    ⟨⟨400, [("error", .str "Format JSON tidak valid"), ("detail", .str detail)]⟩, s, []⟩
  | .ok input =>
    if input.Nama = "" ∨ input.Lokasi = "" then
      ⟨⟨400, [("error", .str "Nama dan Lokasi tidak boleh kosong")]⟩, s, []⟩
    else if input.Rating < 0 ∨ input.Rating > 5 then
      ⟨⟨400, [("error", .str "Rating harus antara 0 dan 5")]⟩, s, []⟩
    else
      match db.insert input.Nama input.Lokasi input.Rating s with
      | (.error _, s1) =>
        ⟨⟨500, [("error", .str "Gagal menyimpan data ke database")]⟩, s1,
          [.insert input.Nama input.Lokasi input.Rating]⟩
      | (.ok newID, s1) =>
        ⟨⟨201, [("message", .str "Bioskop berhasil ditambahkan"),
                ("data", .bioskop { input with ID := newID })]⟩, s1,
          [.insert input.Nama input.Lokasi input.Rating]⟩

/-- Handler `getAllBioskop` of `main14.go` (GET /bioskop). -/
def getAllBioskop {σ : Type} (db : DB σ) (s : σ) : Outcome σ :=
  match db.selectAll s with
  | (.error _, s1) =>
    ⟨⟨500, [("error", .str "Gagal mengambil data dari database")]⟩, s1, [.selectAll]⟩
  | (.ok bioskopList, s1) =>
    if bioskopList.len = 0 then
      ⟨⟨200, [("message", .str "Belum ada data bioskop"), ("data", .slice (some []))]⟩, s1,
        [.selectAll]⟩
    else
      ⟨⟨200, [("message", .str "Data berhasil diambil"), ("total", .int bioskopList.len),
              ("data", .slice bioskopList)]⟩, s1, [.selectAll]⟩

/-- Handler `getBioskopByID` of `main14.go` (GET /bioskop/:id). -/
def getBioskopByID {σ : Type} (db : DB σ) (idParam : String) (s : σ) : Outcome σ :=
  match Atoi idParam with
  | none => ⟨⟨400, [("error", .str "ID harus berupa angka")]⟩, s, []⟩
  | some id =>
    match db.getById id s with
    | (.error .ErrNoRows, s1) =>
      ⟨⟨404, [("error", .str "Bioskop dengan ID tersebut tidak ditemukan")]⟩, s1, [.getById id]⟩
    | (.error (.other _), s1) =>
      ⟨⟨500, [("error", .str "Gagal mengambil data dari database")]⟩, s1, [.getById id]⟩
    | (.ok bioskop, s1) =>
      ⟨⟨200, [("message", .str "Data berhasil diambil"), ("data", .bioskop bioskop)]⟩, s1,
        [.getById id]⟩

/-- Handler `updateBioskop` of `main14.go` (PUT /bioskop/:id).  The error of
`result.RowsAffected()` is discarded by the source (`rowsAffected, _ :=`). -/
def updateBioskop {σ : Type} (db : DB σ) (idParam : String) (body : Except String Bioskop)
    (s : σ) : Outcome σ :=
  match Atoi idParam with
  | none => ⟨⟨400, [("error", .str "ID harus berupa angka")]⟩, s, []⟩
  | some id =>
    match body with
    | .error detail =>
      ⟨⟨400, [("error", .str "Format JSON tidak valid"), ("detail", .str detail)]⟩, s, []⟩
    | .ok input =>
      if input.Nama = "" ∨ input.Lokasi = "" then
        ⟨⟨400, [("error", .str "Nama dan Lokasi tidak boleh kosong")]⟩, s, []⟩
      else if input.Rating < 0 ∨ input.Rating > 5 then
        ⟨⟨400, [("error", .str "Rating harus antara 0 dan 5")]⟩, s, []⟩
      else
        match db.existsById id s with
        | (.error _, s1) =>
          ⟨⟨500, [("error", .str "Gagal memeriksa data")]⟩, s1, [.existsById id]⟩
        | (.ok false, s1) =>
          ⟨⟨404, [("error", .str "Bioskop dengan ID tersebut tidak ditemukan")]⟩, s1,
            [.existsById id]⟩
        | (.ok true, s1) =>
          match db.update input.Nama input.Lokasi input.Rating id s1 with
          | (.error _, s2) =>
            ⟨⟨500, [("error", .str "Gagal memperbarui data")]⟩, s2,
              [.existsById id, .update input.Nama input.Lokasi input.Rating id]⟩
          | (.ok result, s2) =>
            if result.rowsAffected = 0 then
              ⟨⟨404, [("error", .str "Tidak ada data yang diperbarui")]⟩, s2,
                [.existsById id, .update input.Nama input.Lokasi input.Rating id]⟩
            else
              ⟨⟨200, [("message", .str "Data bioskop berhasil diperbarui"),
                      ("data", .bioskop { input with ID := id })]⟩, s2,
                [.existsById id, .update input.Nama input.Lokasi input.Rating id]⟩

/-- Handler `deleteBioskop` of `main14.go` (DELETE /bioskop/:id).  The error of
`result.RowsAffected()` is discarded by the source (`rowsAffected, _ :=`). -/
def deleteBioskop {σ : Type} (db : DB σ) (idParam : String) (s : σ) : Outcome σ :=
  match Atoi idParam with
  | none => ⟨⟨400, [("error", .str "ID harus berupa angka")]⟩, s, []⟩
  | some id =>
    match db.getById id s with
    | (.error .ErrNoRows, s1) =>
      ⟨⟨404, [("error", .str "Bioskop dengan ID tersebut tidak ditemukan")]⟩, s1, [.getById id]⟩
    | (.error (.other _), s1) =>
      ⟨⟨500, [("error", .str "Gagal memeriksa data")]⟩, s1, [.getById id]⟩
    | (.ok bioskop, s1) =>
      match db.delete id s1 with
      | (.error _, s2) =>
        ⟨⟨500, [("error", .str "Gagal menghapus data")]⟩, s2, [.getById id, .delete id]⟩
      | (.ok result, s2) =>
        if result.rowsAffected = 0 then
          ⟨⟨404, [("error", .str "Tidak ada data yang dihapus")]⟩, s2,
            [.getById id, .delete id]⟩
        else
          ⟨⟨200, [("message", .str "Bioskop berhasil dihapus"), ("data", .bioskop bioskop)]⟩,
            s2, [.getById id, .delete id]⟩

end Main14

/-! ## `main.go` -/

namespace Main

/-- Handler `createBioskop` of `main.go` (POST /bioskop): no rating check, no
`detail` field, and a shorter text on a failed insert. -/
def createBioskop {σ : Type} (db : DB σ) (body : Except String Bioskop) (s : σ) : Outcome σ :=
  match body with
  | .error _ => ⟨⟨400, [("error", .str "Format JSON tidak valid")]⟩, s, []⟩
  | .ok input =>
    if input.Nama = "" ∨ input.Lokasi = "" then
      ⟨⟨400, [("error", .str "Nama dan Lokasi tidak boleh kosong")]⟩, s, []⟩
    else
      match db.insert input.Nama input.Lokasi input.Rating s with
      | (.error _, s1) =>
        ⟨⟨500, [("error", .str "Gagal menyimpan data")]⟩, s1,
          [.insert input.Nama input.Lokasi input.Rating]⟩
      | (.ok newID, s1) =>
        ⟨⟨201, [("message", .str "Bioskop berhasil ditambahkan"),
                ("data", .bioskop { input with ID := newID })]⟩, s1,
          [.insert input.Nama input.Lokasi input.Rating]⟩

end Main

/-! ## A model of the table `bioskop` -/

/-- Modelled from the spec: the relational table `bioskop` (columns `id, nama,
lokasi, rating`) with its id sequence, which lives in PostgreSQL and not in the
repository.  `rows` are the stored rows, `nextId` the next value of the
sequence behind the store-assigned `id`. -/
structure Table where
  rows : List Bioskop
  nextId : Int
  deriving DecidableEq

/-- Modelled from the spec: `id` is unique and store-assigned, so every stored id
lies below the sequence value and no id occurs twice. -/
def Table.WF (t : Table) : Prop :=
  (t.rows.map Bioskop.ID).Nodup ∧ ∀ b ∈ t.rows, b.ID < t.nextId

instance (t : Table) : Decidable t.WF := by
  unfold Table.WF; infer_instance

/-- Row of the table with the given id, if any. -/
def Table.lookup (t : Table) (id : Int) : Option Bioskop :=
  t.rows.find? (fun b => decide (b.ID = id))

/-- Number of rows matching `WHERE id = $1`. -/
def Table.matching (t : Table) (id : Int) : Nat :=
  t.rows.countP (fun b => decide (b.ID = id))

/-- Modelled from the spec: the Storage Gateway of section 4.2 run on `Table`;
each field executes the SQL text quoted in `DB`.  No statement fails. -/
def tableDB : DB Table where
  insert nama lokasi rating t :=
    (.ok t.nextId, ⟨t.rows ++ [⟨t.nextId, nama, lokasi, rating⟩], t.nextId + 1⟩)
  selectAll t :=
    (.ok (if t.rows = [] then none
          else some (t.rows.insertionSort (fun a b => a.ID ≤ b.ID))), t)
  getById id t :=
    match t.lookup id with
    | some b => (.ok b, t)
    | none => (.error .ErrNoRows, t)
  existsById id t := (.ok (t.rows.any (fun b => decide (b.ID = id))), t)
  update nama lokasi rating id t :=
    (.ok ⟨t.matching id, none⟩,
      ⟨t.rows.map (fun b => if b.ID = id then ⟨b.ID, nama, lokasi, rating⟩ else b), t.nextId⟩)
  delete id t :=
    (.ok ⟨t.matching id, none⟩, ⟨t.rows.filter (fun b => !decide (b.ID = id)), t.nextId⟩)

/-- A database handle over `Table` whose driver cannot report affected rows:
the statements run as on `tableDB`, but `RowsAffected()` of an `Exec` result
returns 0 together with an error. -/
def noCountDB : DB Table where
  insert := tableDB.insert
  selectAll := tableDB.selectAll
  getById := tableDB.getById
  existsById := tableDB.existsById
  update nama lokasi rating id t :=
    (.ok ⟨0, some (.other "RowsAffected not supported")⟩,
      (tableDB.update nama lokasi rating id t).2)
  delete id t :=
    (.ok ⟨0, some (.other "RowsAffected not supported")⟩, (tableDB.delete id t).2)

/-! ## The spec's wording of a numeric path id -/

/-- The spec's "numeric" path id, read as "a base-10 integer": an optional sign
followed by at least one decimal digit, of any length. -/
def isBase10Integer (s : String) : Bool :=
  let p := stripSign s.toList
  !p.2.isEmpty && p.2.all Char.isDigit

/-- The integer denoted by a base-10 integer literal. -/
def literalValue (s : String) : Int :=
  let p := stripSign s.toList
  if p.1 then -(digitsValue p.2 : Int) else (digitsValue p.2 : Int)

/-! ## Facts about the table model -/

theorem Table.lookup_nextId {t : Table} (h : t.WF) : t.lookup t.nextId = none := by
  unfold Table.lookup
  rw [List.find?_eq_none]
  intro b hb
  have := h.2 b hb
  simp only [decide_eq_true_eq]
  omega

theorem Table.lookup_id {t : Table} {id : Int} {b : Bioskop} (h : t.lookup id = some b) :
    b.ID = id := by
  unfold Table.lookup at h
  have := List.find?_some h
  simpa using this

theorem Table.lookup_mem {t : Table} {id : Int} {b : Bioskop} (h : t.lookup id = some b) :
    b ∈ t.rows := by
  unfold Table.lookup at h
  exact List.mem_of_find?_eq_some h

theorem Table.any_eq_isSome (t : Table) (id : Int) :
    t.rows.any (fun b => decide (b.ID = id)) = (t.lookup id).isSome := by
  unfold Table.lookup
  induction t.rows with
  | nil => rfl
  | cons a l ih =>
    by_cases ha : a.ID = id <;> simp [List.find?, ha, ih]

theorem Table.matching_eq_zero_iff (t : Table) (id : Int) :
    t.matching id = 0 ↔ t.lookup id = none := by
  unfold Table.matching Table.lookup
  rw [List.countP_eq_zero, List.find?_eq_none]

theorem Table.WF_insert {t : Table} (h : t.WF) (nama lokasi : String) (rating : GoFloat32) :
    (tableDB.insert nama lokasi rating t).2.WF := by
  obtain ⟨hnd, hlt⟩ := h
  refine ⟨?_, ?_⟩
  · show ((t.rows ++ [(⟨t.nextId, nama, lokasi, rating⟩ : Bioskop)]).map Bioskop.ID).Nodup
    rw [List.map_append, List.nodup_append]
    refine ⟨hnd, by simp, ?_⟩
    intro a ha hb
    simp only [List.map_cons, List.map_nil, List.mem_singleton] at hb
    obtain ⟨b, hbm, rfl⟩ := List.mem_map.mp ha
    have := hlt b hbm
    omega
  · intro b hb
    show b.ID < t.nextId + 1
    have hb2 : b ∈ t.rows ++ [(⟨t.nextId, nama, lokasi, rating⟩ : Bioskop)] := hb
    rcases List.mem_append.mp hb2 with hm | hm
    · have := hlt b hm
      omega
    · simp only [List.mem_singleton] at hm
      subst hm
      show t.nextId < t.nextId + 1
      omega

theorem filter_ne_eq_erase (l : List Bioskop) (b : Bioskop) (hmem : b ∈ l)
    (hnd : (l.map Bioskop.ID).Nodup) :
    l.filter (fun x => !decide (x.ID = b.ID)) = l.erase b := by
  induction l with
  | nil => cases hmem
  | cons a l ih =>
    rw [List.map_cons, List.nodup_cons] at hnd
    by_cases hab : a = b
    · subst hab
      have : l.filter (fun x => !decide (x.ID = a.ID)) = l := by
        rw [List.filter_eq_self]
        intro x hx
        have hne : x.ID ≠ a.ID := fun he => hnd.1 (he ▸ List.mem_map_of_mem Bioskop.ID hx)
        simp [hne]
      simp [List.filter, this]
    · have hbl : b ∈ l := by
        rcases List.mem_cons.mp hmem with h | h
        · exact absurd h.symm hab
        · exact h
      have hne : a.ID ≠ b.ID := fun he => hnd.1 (he ▸ List.mem_map_of_mem Bioskop.ID hbl)
      rw [List.erase_cons_tail (by simpa using hab)]
      simp [List.filter, hne, ih hbl hnd.2]

theorem Table.lookup_append_new {rows : List Bioskop} {k : Int} (b : Bioskop)
    (h : (Table.mk rows k).lookup b.ID = none) (k2 : Int) :
    (Table.mk (rows ++ [b]) k2).lookup b.ID = some b := by
  unfold Table.lookup at h ⊢
  simp only [List.find?_append, h, Option.none_or]
  simp [List.find?]

theorem Table.lookup_update (t : Table) (nama lokasi : String) (rating : GoFloat32)
    (id k : Int) :
    (tableDB.update nama lokasi rating id t).2.lookup k
      = (t.lookup k).map (fun b => if b.ID = id then ⟨b.ID, nama, lokasi, rating⟩ else b) := by
  show List.find? _ (List.map _ t.rows) = Option.map _ (List.find? _ t.rows)
  rw [List.find?_map]
  congr 2
  funext b
  by_cases hi : b.ID = id <;> simp [hi]

theorem Table.lookup_delete (t : Table) (id k : Int) :
    (tableDB.delete id t).2.lookup k = if k = id then none else t.lookup k := by
  show List.find? _ (List.filter _ t.rows) = _
  unfold Table.lookup
  induction t.rows with
  | nil => simp
  | cons a l ih =>
    rw [List.filter_cons]
    by_cases hi : a.ID = id
    · simp only [hi, decide_True, Bool.not_true, Bool.false_eq_true, if_false, ih]
      by_cases hk : k = id
      · simp [hk]
      · have hne : ¬ a.ID = k := fun h => hk (h.symm.trans hi)
        simp [hk, List.find?_cons, hne]
    · simp only [hi, decide_False, Bool.not_false, if_true, List.find?_cons]
      by_cases hk : a.ID = k
      · have hne : ¬ k = id := fun h => hi (hk.trans h)
        simp [hk, hne]
      · simp only [hk, decide_False, ih]

/-! ## Inversion of the success path of `updateBioskop` -/

theorem Main14.updateBioskop_200_inv {σ : Type} (db : DB σ) (s : σ) (idParam : String)
    (n : Int) (hid : Atoi idParam = some n) (body : Except String Bioskop)
    (h : (Main14.updateBioskop db idParam body s).resp.status = 200) :
    ∃ input s1 s2 res, body = .ok input
      ∧ db.existsById n s = (.ok true, s1)
      ∧ db.update input.Nama input.Lokasi input.Rating n s1 = (.ok res, s2)
      ∧ res.rowsAffected ≠ 0
      ∧ Main14.updateBioskop db idParam body s
        = ⟨⟨200, [("message", .str "Data bioskop berhasil diperbarui"),
                  ("data", .bioskop ⟨n, input.Nama, input.Lokasi, input.Rating⟩)]⟩, s2,
            [.existsById n, .update input.Nama input.Lokasi input.Rating n]⟩ := by
  unfold Main14.updateBioskop at h ⊢
  simp only [hid] at h ⊢
  cases body with
  | error d => simp at h
  | ok input =>
    dsimp only at h ⊢
    by_cases hreq : input.Nama = "" ∨ input.Lokasi = ""
    · simp [if_pos hreq] at h
    · by_cases hr : input.Rating < 0 ∨ input.Rating > 5
      · simp [if_neg hreq, if_pos hr] at h
      · simp only [if_neg hreq, if_neg hr] at h ⊢
        rcases hE : db.existsById n s with ⟨_ | _ | _, s1⟩
        · rw [hE] at h; simp at h
        · rw [hE] at h; simp at h
        · rw [hE] at h
          dsimp only at h ⊢
          rcases hU : db.update input.Nama input.Lokasi input.Rating n s1 with ⟨_ | res, s2⟩
          · rw [hU] at h; simp at h
          · rw [hU] at h
            dsimp only at h ⊢
            by_cases h0 : res.rowsAffected = 0
            · simp [h0] at h
            · exact ⟨input, s1, s2, res, rfl, rfl, hU, h0, by simp [h0]⟩

/-! ## Validation (C1, C2) -/

/-- C1: a decoded body with an empty name or an empty location is answered by
`createBioskop` of `main.go`, `createBioskop` of `main14.go` and `updateBioskop`
(for any path id accepted by `Atoi`) with status 400 and the error
"Nama dan Lokasi tidak boleh kosong", whatever the rating and the id of the
body are; no statement is issued and the database state is untouched. -/
theorem required_fields_rejected {σ : Type} (db : DB σ) (s : σ) (input : Bioskop)
    (idParam : String) (n : Int) (hid : Atoi idParam = some n)
    (h : input.Nama = "" ∨ input.Lokasi = "") :
    Main.createBioskop db (.ok input) s
        = ⟨⟨400, [("error", .str "Nama dan Lokasi tidak boleh kosong")]⟩, s, []⟩
      ∧ Main14.createBioskop db (.ok input) s
        = ⟨⟨400, [("error", .str "Nama dan Lokasi tidak boleh kosong")]⟩, s, []⟩
      ∧ Main14.updateBioskop db idParam (.ok input) s
        = ⟨⟨400, [("error", .str "Nama dan Lokasi tidak boleh kosong")]⟩, s, []⟩ := by
  refine ⟨?_, ?_, ?_⟩
  · simp only [Main.createBioskop, if_pos h]
  · simp only [Main14.createBioskop, if_pos h]
  · simp only [Main14.updateBioskop, hid, if_pos h]

/-- Witness for C1: empty name, rating 9 and body id 7, path id "3". -/
theorem required_fields_rejected_witness :
    Main.createBioskop tableDB (.ok ⟨7, "", "Mall A", 9⟩) ⟨[], 1⟩
        = ⟨⟨400, [("error", .str "Nama dan Lokasi tidak boleh kosong")]⟩, ⟨[], 1⟩, []⟩
      ∧ Main14.createBioskop tableDB (.ok ⟨7, "", "Mall A", 9⟩) ⟨[], 1⟩
        = ⟨⟨400, [("error", .str "Nama dan Lokasi tidak boleh kosong")]⟩, ⟨[], 1⟩, []⟩
      ∧ Main14.updateBioskop tableDB "3" (.ok ⟨7, "", "Mall A", 9⟩) ⟨[], 1⟩
        = ⟨⟨400, [("error", .str "Nama dan Lokasi tidak boleh kosong")]⟩, ⟨[], 1⟩, []⟩ :=
  required_fields_rejected tableDB ⟨[], 1⟩ ⟨7, "", "Mall A", 9⟩ "3" 3 (by decide)
    (Or.inl rfl)

/-- C2: for a decoded body with non-empty name and location, `createBioskop` and
`updateBioskop` of `main14.go` answer 400 "Rating harus antara 0 dan 5" exactly
when `rating < 0` or `rating > 5`.  In that case nothing is issued to the
database; otherwise (in particular for rating 0 and rating 5) create issues the
insert with the rating as received, and update goes on to the existence check
and, if it updates, binds the rating as received. -/
theorem rating_rejected_iff_out_of_range {σ : Type} (db : DB σ) (s : σ) (input : Bioskop)
    (idParam : String) (n : Int) (hid : Atoi idParam = some n)
    (hn : input.Nama ≠ "") (hl : input.Lokasi ≠ "") :
    ((Main14.createBioskop db (.ok input) s).resp
          = ⟨400, [("error", .str "Rating harus antara 0 dan 5")]⟩
        ↔ (input.Rating < 0 ∨ input.Rating > 5))
      ∧ ((Main14.updateBioskop db idParam (.ok input) s).resp
          = ⟨400, [("error", .str "Rating harus antara 0 dan 5")]⟩
        ↔ (input.Rating < 0 ∨ input.Rating > 5))
      ∧ ((input.Rating < 0 ∨ input.Rating > 5) →
          Main14.createBioskop db (.ok input) s
              = ⟨⟨400, [("error", .str "Rating harus antara 0 dan 5")]⟩, s, []⟩
            ∧ Main14.updateBioskop db idParam (.ok input) s
              = ⟨⟨400, [("error", .str "Rating harus antara 0 dan 5")]⟩, s, []⟩)
      ∧ ((0 ≤ input.Rating ∧ input.Rating ≤ 5) →
          (Main14.createBioskop db (.ok input) s).calls
              = [.insert input.Nama input.Lokasi input.Rating]
            ∧ ((Main14.updateBioskop db idParam (.ok input) s).calls = [.existsById n]
              ∨ (Main14.updateBioskop db idParam (.ok input) s).calls
                = [.existsById n, .update input.Nama input.Lokasi input.Rating n])) := by
  have hreq : ¬ (input.Nama = "" ∨ input.Lokasi = "") := by
    rintro (h | h)
    · exact hn h
    · exact hl h
  by_cases hr : input.Rating < 0 ∨ input.Rating > 5
  · have hin : ¬ (0 ≤ input.Rating ∧ input.Rating ≤ 5) := by
      rintro ⟨h0, h5⟩
      rcases hr with h | h
      · exact absurd h0 (not_le.mpr h)
      · exact absurd h5 (not_le.mpr h)
    simp [Main14.createBioskop, Main14.updateBioskop, hid, hreq, hr, hin]
  · have hc : (Main14.createBioskop db (.ok input) s).resp.status ≠ 400
        ∧ (Main14.createBioskop db (.ok input) s).calls
            = [.insert input.Nama input.Lokasi input.Rating] := by
      simp only [Main14.createBioskop, if_neg hreq, if_neg hr]
      rcases db.insert input.Nama input.Lokasi input.Rating s with ⟨_ | _, s1⟩ <;> simp
    have hu : (Main14.updateBioskop db idParam (.ok input) s).resp.status ≠ 400
        ∧ ((Main14.updateBioskop db idParam (.ok input) s).calls = [.existsById n]
          ∨ (Main14.updateBioskop db idParam (.ok input) s).calls
            = [.existsById n, .update input.Nama input.Lokasi input.Rating n]) := by
      simp only [Main14.updateBioskop, hid, if_neg hreq, if_neg hr]
      rcases db.existsById n s with ⟨_ | _ | _, s1⟩
      · simp
      · simp
      · dsimp only
        rcases db.update input.Nama input.Lokasi input.Rating n s1 with ⟨_ | res, s2⟩
        · simp
        · by_cases h0 : res.rowsAffected = 0 <;> simp [h0]
    refine ⟨⟨fun h => ?_, fun h => absurd h hr⟩, ⟨fun h => ?_, fun h => absurd h hr⟩,
      fun h => absurd h hr, fun _ => ⟨hc.2, hu.2⟩⟩
    · exact absurd (by rw [h]) hc.1
    · exact absurd (by rw [h]) hu.1

/-- Witness for C2: rating exactly 5 on the table holding row 3. -/
theorem rating_rejected_iff_out_of_range_witness :
    ((Main14.createBioskop tableDB (.ok ⟨0, "CGV", "Mall A", 5⟩) ⟨[⟨3, "X", "Y", 1⟩], 4⟩).resp
          = ⟨400, [("error", .str "Rating harus antara 0 dan 5")]⟩
        ↔ ((5 : GoFloat32) < 0 ∨ (5 : GoFloat32) > 5))
      ∧ (Main14.createBioskop tableDB (.ok ⟨0, "CGV", "Mall A", 5⟩) ⟨[⟨3, "X", "Y", 1⟩], 4⟩).calls
          = [.insert "CGV" "Mall A" 5] :=
  have h := rating_rejected_iff_out_of_range tableDB ⟨[⟨3, "X", "Y", 1⟩], 4⟩
    ⟨0, "CGV", "Mall A", 5⟩ "3" 3 (by decide) (by decide) (by decide)
  ⟨h.1, (h.2.2.2 ⟨by norm_num, by norm_num⟩).1⟩

/-! ## Create then read back (C3) -/

/-- C3: on the table model with unique, sequence-assigned ids, a valid body
(non-empty name and location, rating in [0,5]) is answered by `createBioskop`
with 201 and the body with its id replaced by the sequence value, which was
not in use before; the insert statement carries name, location and rating only,
so the id of the body is never passed on.  `getBioskopByID` on a path that
denotes the returned id then answers 200 with that same record and changes
nothing. -/
theorem create_then_get_roundtrip (t : Table) (hwf : t.WF) (input : Bioskop)
    (hn : input.Nama ≠ "") (hl : input.Lokasi ≠ "")
    (h0 : 0 ≤ input.Rating) (h5 : input.Rating ≤ 5)
    (idParam : String) (hid : Atoi idParam = some t.nextId) :
    t.lookup t.nextId = none
      ∧ Main14.createBioskop tableDB (.ok input) t
        = ⟨⟨201, [("message", .str "Bioskop berhasil ditambahkan"),
                  ("data", .bioskop ⟨t.nextId, input.Nama, input.Lokasi, input.Rating⟩)]⟩,
            ⟨t.rows ++ [⟨t.nextId, input.Nama, input.Lokasi, input.Rating⟩], t.nextId + 1⟩,
            [.insert input.Nama input.Lokasi input.Rating]⟩
      ∧ Main14.getBioskopByID tableDB idParam (Main14.createBioskop tableDB (.ok input) t).st
        = ⟨⟨200, [("message", .str "Data berhasil diambil"),
                  ("data", .bioskop ⟨t.nextId, input.Nama, input.Lokasi, input.Rating⟩)]⟩,
            (Main14.createBioskop tableDB (.ok input) t).st, [.getById t.nextId]⟩ := by
  have hreq : ¬ (input.Nama = "" ∨ input.Lokasi = "") := by
    rintro (h | h)
    · exact hn h
    · exact hl h
  have hr : ¬ (input.Rating < 0 ∨ input.Rating > 5) := by
    rintro (h | h)
    · exact absurd h0 (not_le.mpr h)
    · exact absurd h5 (not_le.mpr h)
  have hfresh := Table.lookup_nextId hwf
  have hc : Main14.createBioskop tableDB (.ok input) t
        = ⟨⟨201, [("message", .str "Bioskop berhasil ditambahkan"),
                  ("data", .bioskop ⟨t.nextId, input.Nama, input.Lokasi, input.Rating⟩)]⟩,
            ⟨t.rows ++ [⟨t.nextId, input.Nama, input.Lokasi, input.Rating⟩], t.nextId + 1⟩,
            [.insert input.Nama input.Lokasi input.Rating]⟩ := by
    simp only [Main14.createBioskop, if_neg hreq, if_neg hr, tableDB]
  refine ⟨hfresh, hc, ?_⟩
  rw [hc]
  have hlk : (Table.mk (t.rows ++ [⟨t.nextId, input.Nama, input.Lokasi, input.Rating⟩])
      (t.nextId + 1)).lookup t.nextId
        = some ⟨t.nextId, input.Nama, input.Lokasi, input.Rating⟩ :=
    Table.lookup_append_new (k := t.nextId) ⟨t.nextId, input.Nama, input.Lokasi, input.Rating⟩
      hfresh (t.nextId + 1)
  simp only [Main14.getBioskopByID, hid, tableDB, hlk]

/-- Witness for C3: the table holding row 1, next id 2, body carrying id 99. -/
theorem create_then_get_roundtrip_witness :
    Main14.getBioskopByID tableDB "2"
        (Main14.createBioskop tableDB (.ok ⟨99, "CGV", "Mall A", 9 / 2⟩)
          ⟨[⟨1, "XXI", "Plaza", 4⟩], 2⟩).st
      = ⟨⟨200, [("message", .str "Data berhasil diambil"),
                ("data", .bioskop ⟨2, "CGV", "Mall A", 9 / 2⟩)]⟩,
          (Main14.createBioskop tableDB (.ok ⟨99, "CGV", "Mall A", 9 / 2⟩)
            ⟨[⟨1, "XXI", "Plaza", 4⟩], 2⟩).st, [.getById 2]⟩ :=
  (create_then_get_roundtrip ⟨[⟨1, "XXI", "Plaza", 4⟩], 2⟩ (by decide)
    ⟨99, "CGV", "Mall A", 9 / 2⟩ (by decide) (by decide) (by norm_num) (by norm_num)
    "2" (by decide)).2.2

/-! ## Update (C4, C6) -/

/-- C4: whenever `updateBioskop` answers 200 for a path id `n`, the body was
decoded and the returned record carries id `n` and the name, location and
rating of the body, whatever id the body carried.  On the table model a row
was stored under `n` before, the row found under `n` afterwards is that
returned record, every row keeps its id, rows with another id are untouched,
and the id sequence is not advanced. -/
theorem update_keeps_id {σ : Type} (db : DB σ) (s : σ) (t : Table) (idParam : String)
    (n : Int) (hid : Atoi idParam = some n) (body : Except String Bioskop) :
    ((Main14.updateBioskop db idParam body s).resp.status = 200 →
        ∃ input, body = .ok input
          ∧ (Main14.updateBioskop db idParam body s).resp
            = ⟨200, [("message", .str "Data bioskop berhasil diperbarui"),
                     ("data", .bioskop ⟨n, input.Nama, input.Lokasi, input.Rating⟩)]⟩)
      ∧ ((Main14.updateBioskop tableDB idParam body t).resp.status = 200 →
        ∃ input old, body = .ok input ∧ t.lookup n = some old
          ∧ (Main14.updateBioskop tableDB idParam body t).st.lookup n
            = some ⟨n, input.Nama, input.Lokasi, input.Rating⟩
          ∧ (Main14.updateBioskop tableDB idParam body t).st.rows
            = t.rows.map
                (fun b => if b.ID = n then ⟨b.ID, input.Nama, input.Lokasi, input.Rating⟩ else b)
          ∧ (Main14.updateBioskop tableDB idParam body t).st.rows.map Bioskop.ID
            = t.rows.map Bioskop.ID
          ∧ (∀ k, k ≠ n →
              (Main14.updateBioskop tableDB idParam body t).st.lookup k = t.lookup k)
          ∧ (Main14.updateBioskop tableDB idParam body t).st.nextId = t.nextId) := by
  constructor
  · intro h
    obtain ⟨input, s1, s2, res, hb, -, -, -, heq⟩ :=
      Main14.updateBioskop_200_inv db s idParam n hid body h
    exact ⟨input, hb, by rw [heq]⟩
  · intro h
    obtain ⟨input, s1, s2, res, hb, hE, hU, h0, heq⟩ :=
      Main14.updateBioskop_200_inv tableDB t idParam n hid body h
    have hs1 : s1 = t := by
      have := congrArg Prod.snd hE
      exact this.symm
    subst hs1
    have hex : (s1.lookup n).isSome = true := by
      have := congrArg Prod.fst hE
      simp only [tableDB, Except.ok.injEq] at this
      rw [← Table.any_eq_isSome]
      exact this
    obtain ⟨old, hold⟩ := Option.isSome_iff_exists.mp hex
    have hs2 : s2 = (tableDB.update input.Nama input.Lokasi input.Rating n s1).2 := by
      rw [hU]
    have hidold : old.ID = n := Table.lookup_id hold
    refine ⟨input, old, hb, hold, ?_, ?_, ?_, ?_, ?_⟩
    · rw [heq]
      show s2.lookup n = _
      rw [hs2, Table.lookup_update, hold]
      simp [hidold]
    · rw [heq]
      show s2.rows = _
      rw [hs2]
      rfl
    · rw [heq]
      show s2.rows.map Bioskop.ID = _
      rw [hs2]
      show List.map Bioskop.ID (List.map _ s1.rows) = _
      rw [List.map_map]
      apply List.map_congr_left
      intro b _
      by_cases hi : b.ID = n <;> simp [hi]
    · intro k hk
      rw [heq]
      show s2.lookup k = _
      rw [hs2, Table.lookup_update]
      cases hlk : s1.lookup k with
      | none => rfl
      | some b =>
        have : b.ID ≠ n := fun he => hk ((Table.lookup_id hlk).symm.trans he)
        simp [this]
    · rw [heq]
      show s2.nextId = _
      rw [hs2]
      rfl

/-- Witness for C4: row 5 updated through path "5" with a body carrying id 77. -/
theorem update_keeps_id_witness :
    ∃ input, (Except.ok ⟨77, "CGV", "Mall B", 3⟩ : Except String Bioskop) = .ok input
      ∧ (Main14.updateBioskop tableDB "5" (.ok ⟨77, "CGV", "Mall B", 3⟩)
          ⟨[⟨5, "XXI", "Plaza", 4⟩], 6⟩).resp
        = ⟨200, [("message", .str "Data bioskop berhasil diperbarui"),
                 ("data", .bioskop ⟨5, input.Nama, input.Lokasi, input.Rating⟩)]⟩ :=
  (update_keeps_id tableDB ⟨[⟨5, "XXI", "Plaza", 4⟩], 6⟩ ⟨[⟨5, "XXI", "Plaza", 4⟩], 6⟩ "5" 5
    (by decide) (.ok ⟨77, "CGV", "Mall B", 3⟩)).1
    (by
      simp [Main14.updateBioskop, Atoi, stripSign, digitsValue, tableDB, Table.matching]
      norm_num)

/-- C6: for a path id `n` accepted by `Atoi` and a valid body, when the existence
check and the update statement both return without error, `updateBioskop`
answers 404 exactly when the existence check reports the id absent or the
update reports zero affected rows, and 200 otherwise.  An absent id gives
"Bioskop dengan ID tersebut tidak ditemukan" with the existence check as the only
statement issued; zero affected rows after a positive check gives
"Tidak ada data yang diperbarui".  On the table model an absent id leaves the
table as it was. -/
theorem update_404_iff_absent_or_no_rows {σ : Type} (db : DB σ) (s s1 s2 : σ) (t : Table)
    (idParam : String) (n : Int) (hid : Atoi idParam = some n) (input : Bioskop)
    (hn : input.Nama ≠ "") (hl : input.Lokasi ≠ "")
    (h0 : 0 ≤ input.Rating) (h5 : input.Rating ≤ 5)
    (ex : Bool) (res : ExecResult)
    (hE : db.existsById n s = (.ok ex, s1))
    (hU : db.update input.Nama input.Lokasi input.Rating n s1 = (.ok res, s2)) :
    ((Main14.updateBioskop db idParam (.ok input) s).resp.status = 404
        ↔ (ex = false ∨ res.rowsAffected = 0))
      ∧ ((Main14.updateBioskop db idParam (.ok input) s).resp.status ≠ 404 →
          (Main14.updateBioskop db idParam (.ok input) s).resp
            = ⟨200, [("message", .str "Data bioskop berhasil diperbarui"),
                     ("data", .bioskop ⟨n, input.Nama, input.Lokasi, input.Rating⟩)]⟩)
      ∧ (ex = false →
          Main14.updateBioskop db idParam (.ok input) s
            = ⟨⟨404, [("error", .str "Bioskop dengan ID tersebut tidak ditemukan")]⟩, s1,
                [.existsById n]⟩)
      ∧ (ex = true → res.rowsAffected = 0 →
          Main14.updateBioskop db idParam (.ok input) s
            = ⟨⟨404, [("error", .str "Tidak ada data yang diperbarui")]⟩, s2,
                [.existsById n, .update input.Nama input.Lokasi input.Rating n]⟩)
      ∧ (t.lookup n = none →
          Main14.updateBioskop tableDB idParam (.ok input) t
            = ⟨⟨404, [("error", .str "Bioskop dengan ID tersebut tidak ditemukan")]⟩, t,
                [.existsById n]⟩) := by
  have hreq : ¬ (input.Nama = "" ∨ input.Lokasi = "") := by
    rintro (h | h)
    · exact hn h
    · exact hl h
  have hr : ¬ (input.Rating < 0 ∨ input.Rating > 5) := by
    rintro (h | h)
    · exact absurd h0 (not_le.mpr h)
    · exact absurd h5 (not_le.mpr h)
  have hmodel : t.lookup n = none →
      Main14.updateBioskop tableDB idParam (.ok input) t
        = ⟨⟨404, [("error", .str "Bioskop dengan ID tersebut tidak ditemukan")]⟩, t,
            [.existsById n]⟩ := by
    intro hnone
    have hany : t.rows.any (fun b => decide (b.ID = n)) = false := by
      rw [Table.any_eq_isSome, hnone]
      rfl
    have hEt : tableDB.existsById n t = (.ok false, t) := by
      show (Except.ok (t.rows.any (fun b => decide (b.ID = n))), t) = _
      rw [hany]
    simp only [Main14.updateBioskop, hid, if_neg hreq, if_neg hr, hEt]
  cases ex with
  | false =>
    have heq : Main14.updateBioskop db idParam (.ok input) s
        = ⟨⟨404, [("error", .str "Bioskop dengan ID tersebut tidak ditemukan")]⟩, s1,
            [.existsById n]⟩ := by
      simp only [Main14.updateBioskop, hid, if_neg hreq, if_neg hr, hE]
    refine ⟨?_, ?_, fun _ => heq, ?_, hmodel⟩
    · rw [heq]
      simp
    · rw [heq]
      intro h
      exact absurd rfl h
    · intro h
      cases h
  | true =>
    by_cases hz : res.rowsAffected = 0
    · have heq : Main14.updateBioskop db idParam (.ok input) s
          = ⟨⟨404, [("error", .str "Tidak ada data yang diperbarui")]⟩, s2,
              [.existsById n, .update input.Nama input.Lokasi input.Rating n]⟩ := by
        simp only [Main14.updateBioskop, hid, if_neg hreq, if_neg hr, hE, hU, if_pos hz]
      refine ⟨?_, ?_, ?_, fun _ _ => heq, hmodel⟩
      · rw [heq]
        simp [hz]
      · rw [heq]
        intro h
        exact absurd rfl h
      · intro h
        cases h
    · have heq : Main14.updateBioskop db idParam (.ok input) s
          = ⟨⟨200, [("message", .str "Data bioskop berhasil diperbarui"),
                    ("data", .bioskop ⟨n, input.Nama, input.Lokasi, input.Rating⟩)]⟩, s2,
              [.existsById n, .update input.Nama input.Lokasi input.Rating n]⟩ := by
        simp only [Main14.updateBioskop, hid, if_neg hreq, if_neg hr, hE, hU, if_neg hz]
      refine ⟨?_, ?_, ?_, fun _ h => absurd h hz, hmodel⟩
      · rw [heq]
        simp [hz]
      · intro _
        rw [heq]
      · intro h
        cases h

/-- Witness for C6: PUT /bioskop/999 on the table that only holds row 1. -/
theorem update_404_iff_absent_or_no_rows_witness :
    Main14.updateBioskop tableDB "999" (.ok ⟨0, "X", "Y", 1⟩) ⟨[⟨1, "XXI", "Plaza", 4⟩], 2⟩
      = ⟨⟨404, [("error", .str "Bioskop dengan ID tersebut tidak ditemukan")]⟩,
          ⟨[⟨1, "XXI", "Plaza", 4⟩], 2⟩, [.existsById 999]⟩ :=
  (update_404_iff_absent_or_no_rows tableDB ⟨[⟨1, "XXI", "Plaza", 4⟩], 2⟩
    ⟨[⟨1, "XXI", "Plaza", 4⟩], 2⟩ ⟨[⟨1, "XXI", "Plaza", 4⟩], 2⟩ ⟨[⟨1, "XXI", "Plaza", 4⟩], 2⟩
    "999" 999 (by decide) ⟨0, "X", "Y", 1⟩ (by decide) (by decide) (by norm_num) (by norm_num)
    false ⟨0, none⟩ rfl rfl).2.2.1 rfl

/-! ## Delete (C5) -/

/-- C5: on the table model, for a path id `n` accepted by `Atoi`: if a row is
stored under `n`, `deleteBioskop` answers 200 with that row as data and leaves
the table without the rows of id `n` (with unique ids: without exactly that
row), every other id still finds its row, and a following `getBioskopByID` or
`deleteBioskop` on `n` answers 404 and changes nothing; if no row is stored
under `n`, `deleteBioskop` answers 404 and the table is unchanged. -/
theorem delete_returns_snapshot (t : Table) (idParam : String) (n : Int)
    (hid : Atoi idParam = some n) :
    (∀ b, t.lookup n = some b →
        Main14.deleteBioskop tableDB idParam t
            = ⟨⟨200, [("message", .str "Bioskop berhasil dihapus"), ("data", .bioskop b)]⟩,
                ⟨t.rows.filter (fun x => !decide (x.ID = n)), t.nextId⟩,
                [.getById n, .delete n]⟩
          ∧ (∀ x, x ∈ (Main14.deleteBioskop tableDB idParam t).st.rows
              ↔ (x ∈ t.rows ∧ x.ID ≠ n))
          ∧ (t.WF → (Main14.deleteBioskop tableDB idParam t).st.rows = t.rows.erase b)
          ∧ (∀ k, k ≠ n → (Main14.deleteBioskop tableDB idParam t).st.lookup k = t.lookup k)
          ∧ Main14.getBioskopByID tableDB idParam (Main14.deleteBioskop tableDB idParam t).st
            = ⟨⟨404, [("error", .str "Bioskop dengan ID tersebut tidak ditemukan")]⟩,
                (Main14.deleteBioskop tableDB idParam t).st, [.getById n]⟩
          ∧ Main14.deleteBioskop tableDB idParam (Main14.deleteBioskop tableDB idParam t).st
            = ⟨⟨404, [("error", .str "Bioskop dengan ID tersebut tidak ditemukan")]⟩,
                (Main14.deleteBioskop tableDB idParam t).st, [.getById n]⟩)
      ∧ (t.lookup n = none →
        Main14.deleteBioskop tableDB idParam t
          = ⟨⟨404, [("error", .str "Bioskop dengan ID tersebut tidak ditemukan")]⟩, t,
              [.getById n]⟩) := by
  have habsent : ∀ u : Table, u.lookup n = none →
      Main14.deleteBioskop tableDB idParam u
          = ⟨⟨404, [("error", .str "Bioskop dengan ID tersebut tidak ditemukan")]⟩, u,
              [.getById n]⟩
        ∧ Main14.getBioskopByID tableDB idParam u
          = ⟨⟨404, [("error", .str "Bioskop dengan ID tersebut tidak ditemukan")]⟩, u,
              [.getById n]⟩ := by
    intro u hu
    have hG : tableDB.getById n u = (.error .ErrNoRows, u) := by
      show (match u.lookup n with
        | some b => (Except.ok b, u)
        | none => (Except.error DbErr.ErrNoRows, u)) = _
      rw [hu]
    constructor
    · simp only [Main14.deleteBioskop, hid, hG]
    · simp only [Main14.getBioskopByID, hid, hG]
  refine ⟨?_, fun h => (habsent t h).1⟩
  intro b hb
  have hG : tableDB.getById n t = (.ok b, t) := by
    show (match t.lookup n with
      | some b => (Except.ok b, t)
      | none => (Except.error DbErr.ErrNoRows, t)) = _
    rw [hb]
  have hD : tableDB.delete n t
      = (.ok ⟨t.matching n, none⟩, ⟨t.rows.filter (fun x => !decide (x.ID = n)), t.nextId⟩) :=
    rfl
  have hcount : ¬ ((t.matching n : Int) = 0) := by
    intro h0
    have h1 : t.matching n = 0 := by exact_mod_cast h0
    rw [Table.matching_eq_zero_iff, hb] at h1
    cases h1
  have heq : Main14.deleteBioskop tableDB idParam t
      = ⟨⟨200, [("message", .str "Bioskop berhasil dihapus"), ("data", .bioskop b)]⟩,
          ⟨t.rows.filter (fun x => !decide (x.ID = n)), t.nextId⟩,
          [.getById n, .delete n]⟩ := by
    simp only [Main14.deleteBioskop, hid, hG, hD, if_neg hcount]
  have hst : (Main14.deleteBioskop tableDB idParam t).st = (tableDB.delete n t).2 := by
    rw [heq, hD]
  have hgone : (Main14.deleteBioskop tableDB idParam t).st.lookup n = none := by
    rw [hst, Table.lookup_delete, if_pos rfl]
  refine ⟨heq, ?_, ?_, ?_, (habsent _ hgone).2, (habsent _ hgone).1⟩
  · intro x
    rw [heq]
    show x ∈ t.rows.filter (fun x => !decide (x.ID = n)) ↔ _
    simp [List.mem_filter]
  · intro hwf
    rw [heq]
    show t.rows.filter (fun x => !decide (x.ID = n)) = _
    have hbid : b.ID = n := Table.lookup_id hb
    rw [← hbid]
    exact filter_ne_eq_erase t.rows b (Table.lookup_mem hb) hwf.1
  · intro k hk
    rw [hst, Table.lookup_delete, if_neg hk]

/-- Witness for C5: DELETE /bioskop/5 on the table holding rows 4 and 5. -/
theorem delete_returns_snapshot_witness :
    Main14.deleteBioskop tableDB "5" ⟨[⟨4, "XXI", "Plaza", 4⟩, ⟨5, "CGV", "Mall A", 3⟩], 6⟩
      = ⟨⟨200, [("message", .str "Bioskop berhasil dihapus"),
                ("data", .bioskop ⟨5, "CGV", "Mall A", 3⟩)]⟩,
          ⟨[⟨4, "XXI", "Plaza", 4⟩, ⟨5, "CGV", "Mall A", 3⟩].filter
              (fun x => !decide (x.ID = 5)), 6⟩,
          [.getById 5, .delete 5]⟩ :=
  ((delete_returns_snapshot ⟨[⟨4, "XXI", "Plaza", 4⟩, ⟨5, "CGV", "Mall A", 3⟩], 6⟩ "5" 5
    (by decide)).1 ⟨5, "CGV", "Mall A", 3⟩ rfl).1

/-! ## Path ids (C8) -/

theorem Atoi_eq_none_iff (s : String) :
    Atoi s = none ↔
      (isBase10Integer s = false ∨ literalValue s < -(2 ^ 63) ∨ 2 ^ 63 ≤ literalValue s) := by
  unfold Atoi isBase10Integer literalValue
  generalize stripSign s.toList = p
  obtain ⟨neg, ds⟩ := p
  dsimp only
  generalize digitsValue ds = un
  cases hE : ds.isEmpty
  · cases hA : ds.all Char.isDigit
    · simp
    · cases neg
      · simp
        intro h
        omega
      · simp
        intro h
        omega
  · simp

theorem Atoi_eq_some (s : String) (n : Int) (h : Atoi s = some n) :
    isBase10Integer s = true ∧ n = literalValue s := by
  unfold Atoi at h
  unfold isBase10Integer literalValue
  generalize stripSign s.toList = p at h ⊢
  obtain ⟨neg, ds⟩ := p
  dsimp only at h ⊢
  cases hE : ds.isEmpty
  · cases hA : ds.all Char.isDigit
    · simp [hE, hA] at h
    · simp only [hE, hA] at h
      split_ifs at h <;> simp_all
  · simp [hE] at h

theorem Main14.getBioskopByID_resp_ne {σ : Type} (db : DB σ) (s : σ) (idParam : String)
    (n : Int) (hid : Atoi idParam = some n) :
    (Main14.getBioskopByID db idParam s).resp ≠ ⟨400, [("error", .str "ID harus berupa angka")]⟩
      ∧ (Main14.getBioskopByID db idParam s).calls = [.getById n] := by
  simp only [Main14.getBioskopByID, hid]
  rcases db.getById n s with ⟨(_ | _) | _, s1⟩ <;> simp

theorem Main14.deleteBioskop_resp_ne {σ : Type} (db : DB σ) (s : σ) (idParam : String)
    (n : Int) (hid : Atoi idParam = some n) :
    (Main14.deleteBioskop db idParam s).resp
        ≠ ⟨400, [("error", .str "ID harus berupa angka")]⟩
      ∧ (Main14.deleteBioskop db idParam s).calls.head? = some (.getById n) := by
  simp only [Main14.deleteBioskop, hid]
  rcases db.getById n s with ⟨(_ | _) | _, s1⟩
  · simp
  · simp
  · dsimp only
    rcases db.delete n s1 with ⟨_ | res, s2⟩
    · simp
    · by_cases h0 : res.rowsAffected = 0 <;> simp [h0]

theorem Main14.updateBioskop_resp_ne {σ : Type} (db : DB σ) (s : σ) (idParam : String)
    (n : Int) (hid : Atoi idParam = some n) (body : Except String Bioskop) :
    (Main14.updateBioskop db idParam body s).resp
      ≠ ⟨400, [("error", .str "ID harus berupa angka")]⟩ := by
  simp only [Main14.updateBioskop, hid]
  cases body with
  | error d => simp
  | ok input =>
    dsimp only
    by_cases hreq : input.Nama = "" ∨ input.Lokasi = ""
    · simp [if_pos hreq]
    · by_cases hr : input.Rating < 0 ∨ input.Rating > 5
      · simp [if_neg hreq, if_pos hr]
      · simp only [if_neg hreq, if_neg hr]
        rcases db.existsById n s with ⟨_ | _ | _, s1⟩
        · simp
        · simp
        · dsimp only
          rcases db.update input.Nama input.Lokasi input.Rating n s1 with ⟨_ | res, s2⟩
          · simp
          · by_cases h0 : res.rowsAffected = 0 <;> simp [h0]

/-- C8 as stated fails: a path id of twenty-nine decimal digits is a base-10
integer, yet `getBioskopByID`, `updateBioskop` and `deleteBioskop` answer 400
"ID harus berupa angka", because its value does not fit the Go type `int`. -/
theorem long_numeric_id_rejected :
    isBase10Integer "99999999999999999999999999999" = true
      ∧ (Main14.getBioskopByID tableDB "99999999999999999999999999999" ⟨[], 1⟩).resp
        = ⟨400, [("error", .str "ID harus berupa angka")]⟩
      ∧ (Main14.updateBioskop tableDB "99999999999999999999999999999"
          (.ok ⟨0, "X", "Y", 1⟩) ⟨[], 1⟩).resp
        = ⟨400, [("error", .str "ID harus berupa angka")]⟩
      ∧ (Main14.deleteBioskop tableDB "99999999999999999999999999999" ⟨[], 1⟩).resp
        = ⟨400, [("error", .str "ID harus berupa angka")]⟩ := by
  have h : Atoi "99999999999999999999999999999" = none := by decide
  refine ⟨by decide, ?_, ?_, ?_⟩
  · simp only [Main14.getBioskopByID, h]
  · simp only [Main14.updateBioskop, h]
  · simp only [Main14.deleteBioskop, h]

/-- C8, amended: `getBioskopByID`, `updateBioskop` and `deleteBioskop` answer 400
"ID harus berupa angka" exactly when `strconv.Atoi` fails on the path id, that
is, when the id is not an optionally signed string of decimal digits or its
value lies outside the range of a 64-bit `int`.  In that case no statement is
issued, the database state is untouched and the outcome is the same for every
request body.  When `Atoi` returns `n`, `getBioskopByID` and `deleteBioskop`
start with the lookup for `n`, and `getBioskopByID` answers 404 on
`sql.ErrNoRows`, 500 on any other error and 200 with the fetched record on
success. -/
theorem id_rejected_iff_atoi_fails {σ : Type} (db : DB σ) (s : σ) (idParam : String)
    (body : Except String Bioskop) :
    (Atoi idParam = none ↔
        (isBase10Integer idParam = false ∨ literalValue idParam < -(2 ^ 63)
          ∨ 2 ^ 63 ≤ literalValue idParam))
      ∧ ((Main14.getBioskopByID db idParam s).resp
            = ⟨400, [("error", .str "ID harus berupa angka")]⟩ ↔ Atoi idParam = none)
      ∧ ((Main14.updateBioskop db idParam body s).resp
            = ⟨400, [("error", .str "ID harus berupa angka")]⟩ ↔ Atoi idParam = none)
      ∧ ((Main14.deleteBioskop db idParam s).resp
            = ⟨400, [("error", .str "ID harus berupa angka")]⟩ ↔ Atoi idParam = none)
      ∧ (Atoi idParam = none →
          Main14.getBioskopByID db idParam s
              = ⟨⟨400, [("error", .str "ID harus berupa angka")]⟩, s, []⟩
            ∧ (∀ anyBody, Main14.updateBioskop db idParam anyBody s
              = ⟨⟨400, [("error", .str "ID harus berupa angka")]⟩, s, []⟩)
            ∧ Main14.deleteBioskop db idParam s
              = ⟨⟨400, [("error", .str "ID harus berupa angka")]⟩, s, []⟩)
      ∧ (∀ n, Atoi idParam = some n →
          n = literalValue idParam
            ∧ (Main14.getBioskopByID db idParam s).calls = [.getById n]
            ∧ (Main14.deleteBioskop db idParam s).calls.head? = some (.getById n)
            ∧ (∀ s1, db.getById n s = (.error .ErrNoRows, s1) →
                Main14.getBioskopByID db idParam s
                  = ⟨⟨404, [("error", .str "Bioskop dengan ID tersebut tidak ditemukan")]⟩,
                      s1, [.getById n]⟩)
            ∧ (∀ text s1, db.getById n s = (.error (.other text), s1) →
                Main14.getBioskopByID db idParam s
                  = ⟨⟨500, [("error", .str "Gagal mengambil data dari database")]⟩, s1,
                      [.getById n]⟩)
            ∧ (∀ b s1, db.getById n s = (.ok b, s1) →
                Main14.getBioskopByID db idParam s
                  = ⟨⟨200, [("message", .str "Data berhasil diambil"),
                            ("data", .bioskop b)]⟩, s1, [.getById n]⟩)) := by
  refine ⟨Atoi_eq_none_iff idParam, ?_, ?_, ?_, ?_, ?_⟩
  · constructor
    · intro h
      cases hA : Atoi idParam with
      | none => rfl
      | some n => exact absurd h (Main14.getBioskopByID_resp_ne db s idParam n hA).1
    · intro hA
      simp only [Main14.getBioskopByID, hA]
  · constructor
    · intro h
      cases hA : Atoi idParam with
      | none => rfl
      | some n => exact absurd h (Main14.updateBioskop_resp_ne db s idParam n hA body)
    · intro hA
      simp only [Main14.updateBioskop, hA]
  · constructor
    · intro h
      cases hA : Atoi idParam with
      | none => rfl
      | some n => exact absurd h (Main14.deleteBioskop_resp_ne db s idParam n hA).1
    · intro hA
      simp only [Main14.deleteBioskop, hA]
  · intro hA
    refine ⟨?_, fun anyBody => ?_, ?_⟩
    · simp only [Main14.getBioskopByID, hA]
    · simp only [Main14.updateBioskop, hA]
    · simp only [Main14.deleteBioskop, hA]
  · intro n hA
    refine ⟨(Atoi_eq_some idParam n hA).2, (Main14.getBioskopByID_resp_ne db s idParam n hA).2,
      (Main14.deleteBioskop_resp_ne db s idParam n hA).2, ?_, ?_, ?_⟩
    · intro s1 hG
      simp only [Main14.getBioskopByID, hA, hG]
    · intro text s1 hG
      simp only [Main14.getBioskopByID, hA, hG]
    · intro b s1 hG
      simp only [Main14.getBioskopByID, hA, hG]

/-- Witness for C8 (amended): GET /bioskop/abc. -/
theorem id_rejected_iff_atoi_fails_witness :
    Main14.getBioskopByID tableDB "abc" ⟨[], 1⟩
      = ⟨⟨400, [("error", .str "ID harus berupa angka")]⟩, ⟨[], 1⟩, []⟩ :=
  ((id_rejected_iff_atoi_fails tableDB ⟨[], 1⟩ "abc" (.error "EOF")).2.2.2.2.1
    (by decide)).1

/-! ## Store failures (C7) -/

/-- C7 as stated fails: when `RowsAffected()` fails after a successful `Exec`
(here it returns 0 with an error), `updateBioskop` and `deleteBioskop` answer
404 and not 500, since the source discards that error. -/
theorem rows_affected_error_not_500 :
    (noCountDB.update "X" "Y" 1 1 ⟨[⟨1, "XXI", "Plaza", 4⟩], 2⟩).1
        = .ok ⟨0, some (.other "RowsAffected not supported")⟩
      ∧ (Main14.updateBioskop noCountDB "1" (.ok ⟨0, "X", "Y", 1⟩)
          ⟨[⟨1, "XXI", "Plaza", 4⟩], 2⟩).resp
        = ⟨404, [("error", .str "Tidak ada data yang diperbarui")]⟩
      ∧ (noCountDB.delete 1 ⟨[⟨1, "XXI", "Plaza", 4⟩], 2⟩).1
        = .ok ⟨0, some (.other "RowsAffected not supported")⟩
      ∧ (Main14.deleteBioskop noCountDB "1" ⟨[⟨1, "XXI", "Plaza", 4⟩], 2⟩).resp
        = ⟨404, [("error", .str "Tidak ada data yang dihapus")]⟩ := by
  have h : Atoi "1" = some 1 := by decide
  refine ⟨rfl, ?_, rfl, ?_⟩
  · simp [Main14.updateBioskop, h, noCountDB, tableDB]
    norm_num
  · simp [Main14.deleteBioskop, h, noCountDB, tableDB, Table.lookup]

/-- C7, amended: in `main14.go`, whenever the insert, the list query, the
existence check, the update statement or the delete statement returns an error,
or the single-row fetch returns an error other than `sql.ErrNoRows`, the handler
answers 500 with a fixed message that does not depend on the error value.  A
failure of `RowsAffected()` is not looked at: after a successful update or
delete statement the status is 404 when the returned count is zero and 200
otherwise, whatever error accompanies the count. -/
theorem store_failure_gives_500 {σ : Type} (db : DB σ) (s s1 s2 : σ) (e : DbErr)
    (idParam : String) (n : Int) (hid : Atoi idParam = some n) (input : Bioskop)
    (hn : input.Nama ≠ "") (hl : input.Lokasi ≠ "")
    (h0 : 0 ≤ input.Rating) (h5 : input.Rating ≤ 5) :
    (db.insert input.Nama input.Lokasi input.Rating s = (.error e, s1) →
        Main14.createBioskop db (.ok input) s
          = ⟨⟨500, [("error", .str "Gagal menyimpan data ke database")]⟩, s1,
              [.insert input.Nama input.Lokasi input.Rating]⟩)
      ∧ (db.selectAll s = (.error e, s1) →
        Main14.getAllBioskop db s
          = ⟨⟨500, [("error", .str "Gagal mengambil data dari database")]⟩, s1,
              [.selectAll]⟩)
      ∧ (e ≠ .ErrNoRows → db.getById n s = (.error e, s1) →
        Main14.getBioskopByID db idParam s
            = ⟨⟨500, [("error", .str "Gagal mengambil data dari database")]⟩, s1,
                [.getById n]⟩
          ∧ Main14.deleteBioskop db idParam s
            = ⟨⟨500, [("error", .str "Gagal memeriksa data")]⟩, s1, [.getById n]⟩)
      ∧ (db.existsById n s = (.error e, s1) →
        Main14.updateBioskop db idParam (.ok input) s
          = ⟨⟨500, [("error", .str "Gagal memeriksa data")]⟩, s1, [.existsById n]⟩)
      ∧ (db.existsById n s = (.ok true, s1) →
          db.update input.Nama input.Lokasi input.Rating n s1 = (.error e, s2) →
        Main14.updateBioskop db idParam (.ok input) s
          = ⟨⟨500, [("error", .str "Gagal memperbarui data")]⟩, s2,
              [.existsById n, .update input.Nama input.Lokasi input.Rating n]⟩)
      ∧ (∀ b, db.getById n s = (.ok b, s1) → db.delete n s1 = (.error e, s2) →
        Main14.deleteBioskop db idParam s
          = ⟨⟨500, [("error", .str "Gagal menghapus data")]⟩, s2,
              [.getById n, .delete n]⟩)
      ∧ (∀ count countErr, db.existsById n s = (.ok true, s1) →
          db.update input.Nama input.Lokasi input.Rating n s1 = (.ok ⟨count, countErr⟩, s2) →
        (Main14.updateBioskop db idParam (.ok input) s).resp.status
          = if count = 0 then 404 else 200)
      ∧ (∀ b count countErr, db.getById n s = (.ok b, s1) →
          db.delete n s1 = (.ok ⟨count, countErr⟩, s2) →
        (Main14.deleteBioskop db idParam s).resp.status
          = if count = 0 then 404 else 200) := by
  have hreq : ¬ (input.Nama = "" ∨ input.Lokasi = "") := by
    rintro (h | h)
    · exact hn h
    · exact hl h
  have hr : ¬ (input.Rating < 0 ∨ input.Rating > 5) := by
    rintro (h | h)
    · exact absurd h0 (not_le.mpr h)
    · exact absurd h5 (not_le.mpr h)
  refine ⟨?_, ?_, ?_, ?_, ?_, ?_, ?_, ?_⟩
  · intro hI
    simp only [Main14.createBioskop, if_neg hreq, if_neg hr, hI]
  · intro hS
    simp only [Main14.getAllBioskop, hS]
  · intro hne hG
    cases e with
    | ErrNoRows => exact absurd rfl hne
    | other text =>
      constructor
      · simp only [Main14.getBioskopByID, hid, hG]
      · simp only [Main14.deleteBioskop, hid, hG]
  · intro hE
    simp only [Main14.updateBioskop, hid, if_neg hreq, if_neg hr, hE]
  · intro hE hU
    simp only [Main14.updateBioskop, hid, if_neg hreq, if_neg hr, hE, hU]
  · intro b hG hD
    simp only [Main14.deleteBioskop, hid, hG, hD]
  · intro count countErr hE hU
    simp only [Main14.updateBioskop, hid, if_neg hreq, if_neg hr, hE, hU]
    by_cases hc : count = 0 <;> simp [hc]
  · intro b count countErr hG hD
    simp only [Main14.deleteBioskop, hid, hG, hD]
    by_cases hc : count = 0 <;> simp [hc]

/-- Witness for C7 (amended): `RowsAffected()` failing with count 0 on an update. -/
theorem store_failure_gives_500_witness :
    (Main14.updateBioskop noCountDB "1" (.ok ⟨0, "X", "Y", 1⟩)
        ⟨[⟨1, "XXI", "Plaza", 4⟩], 2⟩).resp.status
      = if (0 : Int) = 0 then 404 else 200 :=
  (store_failure_gives_500 noCountDB ⟨[⟨1, "XXI", "Plaza", 4⟩], 2⟩
    ⟨[⟨1, "XXI", "Plaza", 4⟩], 2⟩ ⟨[⟨1, "X", "Y", 1⟩], 2⟩ (.other "connection reset")
    "1" 1 (by decide) ⟨0, "X", "Y", 1⟩ (by decide) (by decide) (by norm_num)
    (by norm_num)).2.2.2.2.2.2.1 0 (some (.other "RowsAffected not supported")) rfl rfl

/-! ## Listing (C9) -/

/-- C9: whenever the list query succeeds, `getAllBioskop` answers 200.  If the
returned slice has length zero (nil or empty) the data field is the explicit
empty slice, not nil, with the message "Belum ada data bioskop" and no total;
otherwise the data field is the slice returned by the query and the total field
is its length.  On the table model the query always succeeds, and for a
non-empty table the data is a rearrangement of the stored rows in ascending
order of id. -/
theorem list_success_is_200 {σ : Type} (db : DB σ) (s s1 : σ) (l : BioskopSlice) (t : Table)
    (h : db.selectAll s = (.ok l, s1)) :
    (Main14.getAllBioskop db s).resp.status = 200
      ∧ (l.len = 0 →
          Main14.getAllBioskop db s
            = ⟨⟨200, [("message", .str "Belum ada data bioskop"),
                      ("data", .slice (some []))]⟩, s1, [.selectAll]⟩)
      ∧ (l.len ≠ 0 →
          Main14.getAllBioskop db s
            = ⟨⟨200, [("message", .str "Data berhasil diambil"), ("total", .int l.len),
                      ("data", .slice l)]⟩, s1, [.selectAll]⟩)
      ∧ (t.rows = [] →
          Main14.getAllBioskop tableDB t
            = ⟨⟨200, [("message", .str "Belum ada data bioskop"),
                      ("data", .slice (some []))]⟩, t, [.selectAll]⟩)
      ∧ (t.rows ≠ [] →
          Main14.getAllBioskop tableDB t
              = ⟨⟨200, [("message", .str "Data berhasil diambil"),
                        ("total", .int t.rows.length),
                        ("data", .slice (some (t.rows.insertionSort
                          (fun a b => a.ID ≤ b.ID))))]⟩, t, [.selectAll]⟩
            ∧ (t.rows.insertionSort (fun a b => a.ID ≤ b.ID)).Sorted (fun a b => a.ID ≤ b.ID)
            ∧ (t.rows.insertionSort (fun a b => a.ID ≤ b.ID)).Perm t.rows) := by
  have hgen : (l.len = 0 →
        Main14.getAllBioskop db s
          = ⟨⟨200, [("message", .str "Belum ada data bioskop"),
                    ("data", .slice (some []))]⟩, s1, [.selectAll]⟩)
      ∧ (l.len ≠ 0 →
        Main14.getAllBioskop db s
          = ⟨⟨200, [("message", .str "Data berhasil diambil"), ("total", .int l.len),
                    ("data", .slice l)]⟩, s1, [.selectAll]⟩) := by
    constructor
    · intro h0
      simp only [Main14.getAllBioskop, h, if_pos h0]
    · intro h0
      simp only [Main14.getAllBioskop, h, if_neg h0]
  refine ⟨?_, hgen.1, hgen.2, ?_, ?_⟩
  · by_cases h0 : l.len = 0
    · rw [hgen.1 h0]
    · rw [hgen.2 h0]
  · intro hrows
    have hS : tableDB.selectAll t = (.ok none, t) := by
      show (Except.ok (if t.rows = [] then none
        else some (t.rows.insertionSort (fun a b => a.ID ≤ b.ID))), t) = _
      rw [if_pos hrows]
    have hlen : BioskopSlice.len none = 0 := rfl
    simp only [Main14.getAllBioskop, hS, if_pos hlen]
  · intro hrows
    have hS : tableDB.selectAll t
        = (.ok (some (t.rows.insertionSort (fun a b => a.ID ≤ b.ID))), t) := by
      show (Except.ok (if t.rows = [] then none
        else some (t.rows.insertionSort (fun a b => a.ID ≤ b.ID))), t) = _
      rw [if_neg hrows]
    have hlen : BioskopSlice.len (some (t.rows.insertionSort (fun a b => a.ID ≤ b.ID)))
        = t.rows.length := by
      show (t.rows.insertionSort (fun a b => a.ID ≤ b.ID)).length = _
      exact List.length_insertionSort _ _
    have hne : ¬ BioskopSlice.len (some (t.rows.insertionSort (fun a b => a.ID ≤ b.ID))) = 0 := by
      rw [hlen]
      intro h0
      exact hrows (List.length_eq_zero.mp h0)
    haveI : IsTotal Bioskop (fun a b => a.ID ≤ b.ID) := ⟨fun a b => le_total a.ID b.ID⟩
    haveI : IsTrans Bioskop (fun a b => a.ID ≤ b.ID) := ⟨fun _ _ _ hab hbc => le_trans hab hbc⟩
    refine ⟨?_, List.sorted_insertionSort _ _, List.perm_insertionSort _ _⟩
    have hne2 : ¬ t.rows.length = 0 := fun h0 => hrows (List.length_eq_zero.mp h0)
    simp only [Main14.getAllBioskop, hS, hlen, if_neg hne2]

/-- Witness for C9: the list query on the empty table returns the nil slice. -/
theorem list_success_is_200_witness :
    Main14.getAllBioskop tableDB ⟨[], 1⟩
      = ⟨⟨200, [("message", .str "Belum ada data bioskop"), ("data", .slice (some []))]⟩,
          ⟨[], 1⟩, [.selectAll]⟩ :=
  (list_success_is_200 tableDB ⟨[], 1⟩ ⟨[], 1⟩ none ⟨[], 1⟩ rfl).2.1 rfl

/-! ## The two versions of `createBioskop` (C10) -/

/-- C10 as stated fails: for a body with rating 7, `createBioskop` of `main.go`
inserts the row and answers 201 with data, while `createBioskop` of `main14.go`
answers 400 without data. -/
theorem create_versions_differ_on_rating :
    (Main.createBioskop tableDB (.ok ⟨0, "CGV", "Mall A", 7⟩) ⟨[], 1⟩).resp
        = ⟨201, [("message", .str "Bioskop berhasil ditambahkan"),
                 ("data", .bioskop ⟨1, "CGV", "Mall A", 7⟩)]⟩
      ∧ (Main14.createBioskop tableDB (.ok ⟨0, "CGV", "Mall A", 7⟩) ⟨[], 1⟩).resp
        = ⟨400, [("error", .str "Rating harus antara 0 dan 5")]⟩ := by
  constructor
  · simp [Main.createBioskop, tableDB]
  · simp [Main14.createBioskop]
    norm_num

/-- C10, amended: for every database and every request body that fails to decode,
or has an empty name or location, or has a rating within [0,5],
`createBioskop` of `main.go` and of `main14.go` give the same status code, the
same data field, the same statements and the same database state.  For a
decoded body with non-empty name and location and a rating outside [0,5],
`main14.go` answers 400 and issues nothing, whereas `main.go` issues the insert
and answers 201 or 500. -/
theorem create_versions_agree {σ : Type} (db : DB σ) (s : σ) (body : Except String Bioskop) :
    ((∀ input, body = .ok input →
          input.Nama = "" ∨ input.Lokasi = "" ∨ (0 ≤ input.Rating ∧ input.Rating ≤ 5)) →
        (Main.createBioskop db body s).resp.status
            = (Main14.createBioskop db body s).resp.status
          ∧ (Main.createBioskop db body s).resp.field "data"
            = (Main14.createBioskop db body s).resp.field "data"
          ∧ (Main.createBioskop db body s).calls = (Main14.createBioskop db body s).calls
          ∧ (Main.createBioskop db body s).st = (Main14.createBioskop db body s).st)
      ∧ (∀ input, body = .ok input → input.Nama ≠ "" → input.Lokasi ≠ "" →
          (input.Rating < 0 ∨ input.Rating > 5) →
        Main14.createBioskop db body s
            = ⟨⟨400, [("error", .str "Rating harus antara 0 dan 5")]⟩, s, []⟩
          ∧ (Main.createBioskop db body s).calls
            = [.insert input.Nama input.Lokasi input.Rating]
          ∧ ((Main.createBioskop db body s).resp.status = 201
            ∨ (Main.createBioskop db body s).resp.status = 500)) := by
  constructor
  · intro h
    cases body with
    | error d => simp [Main.createBioskop, Main14.createBioskop, Response.field]
    | ok input =>
      by_cases hreq : input.Nama = "" ∨ input.Lokasi = ""
      · simp [Main.createBioskop, Main14.createBioskop, Response.field, if_pos hreq]
      · have hin : 0 ≤ input.Rating ∧ input.Rating ≤ 5 := by
          rcases h input rfl with h1 | h1 | h1
          · exact absurd (Or.inl h1) hreq
          · exact absurd (Or.inr h1) hreq
          · exact h1
        have hr : ¬ (input.Rating < 0 ∨ input.Rating > 5) := by
          rintro (h1 | h1)
          · exact absurd hin.1 (not_le.mpr h1)
          · exact absurd hin.2 (not_le.mpr h1)
        simp only [Main.createBioskop, Main14.createBioskop, if_neg hreq, if_neg hr]
        rcases db.insert input.Nama input.Lokasi input.Rating s with ⟨_ | newID, s1⟩
        · simp [Response.field]
        · simp [Response.field]
  · intro input hb hn hl hr
    subst hb
    have hreq : ¬ (input.Nama = "" ∨ input.Lokasi = "") := by
      rintro (h | h)
      · exact hn h
      · exact hl h
    refine ⟨?_, ?_⟩
    · simp only [Main14.createBioskop, if_neg hreq, if_pos hr]
    · simp only [Main.createBioskop, if_neg hreq]
      rcases db.insert input.Nama input.Lokasi input.Rating s with ⟨_ | newID, s1⟩ <;> simp

/-- Witness for C10 (amended): a body with rating 4.5 on the empty table. -/
theorem create_versions_agree_witness :
    (Main.createBioskop tableDB (.ok ⟨0, "CGV", "Mall A", 9 / 2⟩) ⟨[], 1⟩).resp.status
      = (Main14.createBioskop tableDB (.ok ⟨0, "CGV", "Mall A", 9 / 2⟩) ⟨[], 1⟩).resp.status :=
  ((create_versions_agree tableDB ⟨[], 1⟩ (.ok ⟨0, "CGV", "Mall A", 9 / 2⟩)).1
    (fun input hb => by
      cases hb
      exact Or.inr (Or.inr ⟨by norm_num, by norm_num⟩))).1

end BackendGo
